import Mathlib

/-!
# Task registry and dispatch wrapper of `ConnectionPool`

A shallow embedding of `src/connectionPool.hpp`: the two record classes, the
registry map with its three read accessors and three private mutators, the
atomic id counter, and the `taskWrapper` lambda built by `enqueue`.

The registry (`std::unordered_map<std::size_t, ConnectionInfoTask>`) is an
association list searched front to back; an iterator write goes to the entry
that `find` returns.  The reader/writer lock is not modelled: every method
holds it for its whole body, so each method is one atomic step on the state.
-/

namespace ConnPool

/-! ## Data model (connectionPool.hpp, lines 6-39) -/

/-- The class `ConTaskInfo`: the error message and the nested completion flag. -/
structure ConTaskInfo where
  errorMessage : Option String := none
  isCompleted : Bool := false
deriving DecidableEq, Repr

/-- The class `ConnectionInfoTask`: one entry of the registry. -/
structure ConnectionInfoTask where
  protocolName : String
  taskId : Nat
  isCompleted : Bool := false
  taskInfo : ConTaskInfo := {}
deriving DecidableEq, Repr

/-- The interface `Connection`, reduced to the one member the pool calls. -/
structure Connection where
  getProtocolName : String
deriving DecidableEq, Repr

/-- What a C++ call can throw: an object derived from `std::exception`
(caught by `catch (const std::exception&)`, with its `what()` text), or an
object of any other type. -/
inductive Thrown where
  | stdException (dynamicType : String) (what : String)
  | other (description : String)
deriving DecidableEq, Repr

/-- How a call ends: it returns a value or it throws. -/
inductive Outcome (R : Type) where
  | returned (value : R)
  | raised (thrown : Thrown)
deriving DecidableEq, Repr

/-- The member `connectionRegistry`. -/
abbrev Registry := List (Nat × ConnectionInfoTask)

/-- The call `connectionRegistry.find(taskId)`: `none` stands for `end()`. -/
def find : Registry → Nat → Option ConnectionInfoTask
  | [], _ => none
  | (key, value) :: rest, taskId =>
    if key = taskId then some value else find rest taskId

/-- A write through the iterator returned by `find(taskId)`: the entry found
is replaced by `g` of it, every other entry stays. -/
def writeThrough : Registry → Nat → (ConnectionInfoTask → ConnectionInfoTask) → Registry
  | [], _, _ => []
  | (key, value) :: rest, taskId, g =>
    if key = taskId then (key, g value) :: rest
    else (key, value) :: writeThrough rest taskId g

/-- The object thrown by the two strict accessors. -/
def taskNotFound : Thrown :=
  .stdException "std::runtime_error" "Task not found"

/-! ## Read accessors (lines 94-120) -/

/-- The method `isTaskCompleted` (lines 94-101). -/
def isTaskCompleted (connectionRegistry : Registry) (taskId : Nat) : Outcome Bool :=
  match find connectionRegistry taskId with
  | none => .raised taskNotFound
  | some it => .returned it.isCompleted

/-- The method `getTaskErrorMessage` (lines 103-110). -/
def getTaskErrorMessage (connectionRegistry : Registry) (taskId : Nat) :
    Outcome (Option String) :=
  match find connectionRegistry taskId with
  | none => .raised taskNotFound
  | some it => .returned it.taskInfo.errorMessage

/-- The method `getDetailedTaskInfo` (lines 113-120): a copy of the nested
`ConTaskInfo`, or `nullopt`. -/
def getDetailedTaskInfo (connectionRegistry : Registry) (taskId : Nat) :
    Option ConTaskInfo :=
  match find connectionRegistry taskId with
  | some it => some it.taskInfo
  | none => none

/-! ## Private mutators (lines 124-153) -/

/-- The object `newConnectionInfo` built at lines 134-135. -/
def newConnectionInfo (currentTaskId : Nat) (connection : Connection) : ConnectionInfoTask :=
  let built : ConnectionInfoTask :=
    { protocolName := connection.getProtocolName, taskId := currentTaskId,
      isCompleted := false, taskInfo := {} }
  { built with protocolName := connection.getProtocolName }

/-- The locals of `recordConnection` when it returns: line 133 declares a
fresh map named `connectionRegistry`, which hides the member inside the body,
and line 134 builds `newConnectionInfo`; the record is put in neither map. -/
def recordConnectionLocals (currentTaskId : Nat) (connection : Connection) :
    Registry × ConnectionInfoTask :=
  (([] : Registry), newConnectionInfo currentTaskId connection)

/-- The method `recordConnection` (lines 124-137), as a function of the member
registry.  The body only builds its two locals, which die at the closing
brace; the `emplace` into the member is commented out (line 129). -/
def recordConnection (connectionRegistry : Registry) (currentTaskId : Nat)
    (connection : Connection) : Registry :=
  let _locals := recordConnectionLocals currentTaskId connection
  connectionRegistry

/-- The method `markTaskAsCompleted` (lines 139-145): writes the outer flag
`ConnectionInfoTask::isCompleted` only. -/
def markTaskAsCompleted (connectionRegistry : Registry) (taskId : Nat) : Registry :=
  match find connectionRegistry taskId with
  | some _ => writeThrough connectionRegistry taskId fun it => { it with isCompleted := true }
  | none => connectionRegistry

/-- The method `recordTaskError` (lines 147-153). -/
def recordTaskError (connectionRegistry : Registry) (taskId : Nat) (errorMessage : String) :
    Registry :=
  match find connectionRegistry taskId with
  | some _ =>
    writeThrough connectionRegistry taskId fun it =>
      { it with taskInfo := { it.taskInfo with errorMessage := some errorMessage } }
  | none => connectionRegistry

/-! ## The pool state and the wrapped unit of work (lines 44-46, 61-92) -/

/-- The mutable members of `ConnectionPool`. -/
structure ConnectionPool where
  connectionIdCounter : Nat
  connectionRegistry : Registry
deriving DecidableEq, Repr

/-- A pool right after construction: counter `0`, empty registry. -/
def initialPool : ConnectionPool :=
  { connectionIdCounter := 0, connectionRegistry := [] }

/-- The call `fetch_add(arg)` on a `std::atomic<std::size_t>` of `w` bits: the
value held before, and the value stored, which wraps modulo `2 ^ w`.  A
`size_t` always holds a value below `2 ^ w`, so the value read is reduced as
well; on such a value the reduction changes nothing. -/
def fetch_add (w : Nat) (counter : Nat) (arg : Nat) : Nat × Nat :=
  (counter % 2 ^ w, (counter + arg) % 2 ^ w)

/-- One run of a wrapped unit of work: the pool it leaves, the id it drew
(the local `currentTaskId`) and what the handle observes. -/
structure WrapperRun (R : Type) where
  pool : ConnectionPool
  currentTaskId : Nat
  outcome : Outcome R
deriving DecidableEq, Repr

/-- The try/catch of `taskWrapper` (lines 71-87) for a non-void `ReturnType`;
`result` is how `std::apply(f, capturedArgs)` ended. -/
def tryCatch {R : Type} (connectionRegistry : Registry) (currentTaskId : Nat)
    (result : Outcome R) : Registry × Outcome R :=
  match result with
  | .returned value => (markTaskAsCompleted connectionRegistry currentTaskId, .returned value)
  | .raised (.stdException dynamicType what) =>
    (recordTaskError connectionRegistry currentTaskId what,
      .raised (.stdException dynamicType what))
  | .raised (.other description) => (connectionRegistry, .raised (.other description))

/-- The try/catch of `taskWrapper` (lines 71-87) for `ReturnType = void`: the
handler does not rethrow and control falls off the end of the lambda. -/
def tryCatchVoid (connectionRegistry : Registry) (currentTaskId : Nat)
    (result : Outcome Unit) : Registry × Outcome Unit :=
  match result with
  | .returned () => (markTaskAsCompleted connectionRegistry currentTaskId, .returned ())
  | .raised (.stdException _ what) =>
    (recordTaskError connectionRegistry currentTaskId what, .returned ())
  | .raised (.other description) => (connectionRegistry, .raised (.other description))

/-- The lambda `taskWrapper` (lines 67-88) for a non-void `ReturnType`, on a
counter of `w` bits. -/
def taskWrapper {A R : Type} (w : Nat) (pool : ConnectionPool) (connection : Connection)
    (f : A → Outcome R) (capturedArgs : A) : WrapperRun R :=
  let drawn := fetch_add w pool.connectionIdCounter 1
  let currentTaskId := drawn.1
  let registered := recordConnection pool.connectionRegistry currentTaskId connection
  let done := tryCatch registered currentTaskId (f capturedArgs)
  { pool := { connectionIdCounter := drawn.2, connectionRegistry := done.1 },
    currentTaskId := currentTaskId, outcome := done.2 }

/-- The lambda `taskWrapper` (lines 67-88) for `ReturnType = void`. -/
def taskWrapperVoid {A : Type} (w : Nat) (pool : ConnectionPool) (connection : Connection)
    (f : A → Outcome Unit) (capturedArgs : A) : WrapperRun Unit :=
  let drawn := fetch_add w pool.connectionIdCounter 1
  let currentTaskId := drawn.1
  let registered := recordConnection pool.connectionRegistry currentTaskId connection
  let done := tryCatchVoid registered currentTaskId (f capturedArgs)
  { pool := { connectionIdCounter := drawn.2, connectionRegistry := done.1 },
    currentTaskId := currentTaskId, outcome := done.2 }

/-! ## Sequences of registry operations -/

/-- One call on the registry: the three private mutators and the three public
read accessors. -/
inductive RegistryOp where
  | recordConnection (currentTaskId : Nat) (connection : Connection)
  | markTaskAsCompleted (taskId : Nat)
  | recordTaskError (taskId : Nat) (errorMessage : String)
  | isTaskCompleted (taskId : Nat)
  | getTaskErrorMessage (taskId : Nat)
  | getDetailedTaskInfo (taskId : Nat)
deriving DecidableEq, Repr

/-- The registry after one call; the accessors take the shared lock and only
read. -/
def step (connectionRegistry : Registry) : RegistryOp → Registry
  | .recordConnection currentTaskId connection =>
    recordConnection connectionRegistry currentTaskId connection
  | .markTaskAsCompleted taskId => markTaskAsCompleted connectionRegistry taskId
  | .recordTaskError taskId errorMessage => recordTaskError connectionRegistry taskId errorMessage
  | .isTaskCompleted _ => connectionRegistry
  | .getTaskErrorMessage _ => connectionRegistry
  | .getDetailedTaskInfo _ => connectionRegistry

/-- The registry after a sequence of calls, first to last. -/
def run (connectionRegistry : Registry) (ops : List RegistryOp) : Registry :=
  ops.foldl step connectionRegistry

/-! ## Sequences of wrapper runs -/

/-- A unit of work built by `enqueue`: the connection, the callable and its
captured arguments, for a non-void or a void `ReturnType`. -/
inductive Job (A R : Type) where
  | nonVoid (connection : Connection) (f : A → Outcome R) (capturedArgs : A)
  | void (connection : Connection) (f : A → Outcome Unit) (capturedArgs : A)

/-- One job run to its end on a worker: the pool it leaves and the id it drew. -/
def runJob {A R : Type} (w : Nat) (pool : ConnectionPool) : Job A R → ConnectionPool × Nat
  | .nonVoid connection f capturedArgs =>
    ((taskWrapper w pool connection f capturedArgs).pool,
      (taskWrapper w pool connection f capturedArgs).currentTaskId)
  | .void connection f capturedArgs =>
    ((taskWrapperVoid w pool connection f capturedArgs).pool,
      (taskWrapperVoid w pool connection f capturedArgs).currentTaskId)

/-- The ids drawn by a sequence of jobs, in the order in which their
`fetch_add` calls take effect. -/
def runJobs {A R : Type} (w : Nat) : ConnectionPool → List (Job A R) → List Nat
  | _, [] => []
  | pool, job :: rest => (runJob w pool job).2 :: runJobs w (runJob w pool job).1 rest

/-! ## Lemmas on `find` and `writeThrough` -/

theorem find_writeThrough_same (reg : Registry) (taskId : Nat)
    (g : ConnectionInfoTask → ConnectionInfoTask) :
    find (writeThrough reg taskId g) taskId = (find reg taskId).map g := by
  induction reg with
  | nil => rfl
  | cons head rest ih =>
    obtain ⟨key, value⟩ := head
    by_cases hk : key = taskId
    · simp [writeThrough, find, hk]
    · simp [writeThrough, find, hk, ih]

theorem find_writeThrough_other (reg : Registry) (taskId other : Nat)
    (g : ConnectionInfoTask → ConnectionInfoTask) (hne : other ≠ taskId) :
    find (writeThrough reg taskId g) other = find reg other := by
  induction reg with
  | nil => rfl
  | cons head rest ih =>
    obtain ⟨key, value⟩ := head
    by_cases hk : key = taskId
    · subst hk
      have hko : ¬ key = other := fun h => hne h.symm
      simp [writeThrough, find, hko]
    · by_cases hko : key = other
      · subst hko
        simp [writeThrough, find, hk]
      · simp [writeThrough, find, hk, hko, ih]

/-! ## Lemmas on the mutators -/

theorem find_markTaskAsCompleted_same (reg : Registry) (taskId : Nat) :
    find (markTaskAsCompleted reg taskId) taskId =
      (find reg taskId).map fun it => { it with isCompleted := true } := by
  unfold markTaskAsCompleted
  cases h : find reg taskId with
  | none => simp [h]
  | some it => simp [find_writeThrough_same, h]

theorem find_markTaskAsCompleted_other (reg : Registry) (taskId other : Nat)
    (hne : other ≠ taskId) :
    find (markTaskAsCompleted reg taskId) other = find reg other := by
  unfold markTaskAsCompleted
  cases find reg taskId with
  | none => rfl
  | some it => exact find_writeThrough_other reg taskId other _ hne

theorem find_recordTaskError_same (reg : Registry) (taskId : Nat) (m : String) :
    find (recordTaskError reg taskId m) taskId =
      (find reg taskId).map fun it =>
        { it with taskInfo := { it.taskInfo with errorMessage := some m } } := by
  unfold recordTaskError
  cases h : find reg taskId with
  | none => simp [h]
  | some it => simp [find_writeThrough_same, h]

theorem find_recordTaskError_other (reg : Registry) (taskId other : Nat) (m : String)
    (hne : other ≠ taskId) :
    find (recordTaskError reg taskId m) other = find reg other := by
  unfold recordTaskError
  cases find reg taskId with
  | none => rfl
  | some it => exact find_writeThrough_other reg taskId other _ hne

/-! ## Unknown ids -/

/-- C1: on a task id that is not in the registry, `isTaskCompleted` and
`getTaskErrorMessage` throw `std::runtime_error("Task not found")`,
`getDetailedTaskInfo` returns `nullopt` without throwing, and each of the three
calls leaves the registry as it was. -/
theorem unknown_id_accessors (reg : Registry) (taskId : Nat)
    (habsent : find reg taskId = none) :
    isTaskCompleted reg taskId
        = .raised (.stdException "std::runtime_error" "Task not found") ∧
      getTaskErrorMessage reg taskId
        = .raised (.stdException "std::runtime_error" "Task not found") ∧
      getDetailedTaskInfo reg taskId = none ∧
      step reg (.isTaskCompleted taskId) = reg ∧
      step reg (.getTaskErrorMessage taskId) = reg ∧
      step reg (.getDetailedTaskInfo taskId) = reg := by
  refine ⟨?_, ?_, ?_, rfl, rfl, rfl⟩
  · simp [isTaskCompleted, habsent, taskNotFound]
  · simp [getTaskErrorMessage, habsent, taskNotFound]
  · simp [getDetailedTaskInfo, habsent]

/-- C1 at a registry holding task 1 only, asked about task 7. -/
theorem unknown_id_accessors_witness :
    find [(1, { protocolName := "SSH", taskId := 1 })] 7 = none ∧
      isTaskCompleted [(1, { protocolName := "SSH", taskId := 1 })] 7
        = .raised (.stdException "std::runtime_error" "Task not found") ∧
      getDetailedTaskInfo [(1, { protocolName := "SSH", taskId := 1 })] 7 = none :=
  ⟨by decide,
    (unknown_id_accessors [(1, { protocolName := "SSH", taskId := 1 })] 7 (by decide)).1,
    (unknown_id_accessors [(1, { protocolName := "SSH", taskId := 1 })] 7 (by decide)).2.2.1⟩

/-! ## Frame conditions of the mutators -/

/-- C8: `markTaskAsCompleted(id)` on a present id makes `isTaskCompleted(id)`
return true and replaces the record by itself with only the outer flag set
(error message, protocol name, task id and nested info as before); every
other id finds what it found before; on an unknown id the registry is
returned unchanged. -/
theorem markTaskAsCompleted_frame (reg : Registry) (taskId : Nat) :
    (∀ it, find reg taskId = some it →
        isTaskCompleted (markTaskAsCompleted reg taskId) taskId = .returned true ∧
        find (markTaskAsCompleted reg taskId) taskId = some { it with isCompleted := true } ∧
        getTaskErrorMessage (markTaskAsCompleted reg taskId) taskId
          = getTaskErrorMessage reg taskId) ∧
      (∀ other, other ≠ taskId →
        find (markTaskAsCompleted reg taskId) other = find reg other) ∧
      (find reg taskId = none → markTaskAsCompleted reg taskId = reg) := by
  refine ⟨?_, ?_, ?_⟩
  · intro it hit
    have hfind := find_markTaskAsCompleted_same reg taskId
    rw [hit] at hfind
    simp only [Option.map_some'] at hfind
    refine ⟨?_, hfind, ?_⟩
    · simp [isTaskCompleted, hfind]
    · simp [getTaskErrorMessage, hfind, hit]
  · intro other hne
    exact find_markTaskAsCompleted_other reg taskId other hne
  · intro habsent
    simp [markTaskAsCompleted, habsent]

/-- C8 at a registry holding tasks 0 and 1, marking task 1. -/
theorem markTaskAsCompleted_frame_witness :
    isTaskCompleted
        (markTaskAsCompleted
          [(0, { protocolName := "SSH", taskId := 0 }),
            (1, { protocolName := "SFTP", taskId := 1 })] 1) 1 = .returned true :=
  ((markTaskAsCompleted_frame
      [(0, { protocolName := "SSH", taskId := 0 }),
        (1, { protocolName := "SFTP", taskId := 1 })] 1).1
    { protocolName := "SFTP", taskId := 1 } (by decide)).1

/-- C9: `recordTaskError(id, m)` on a present id makes `getTaskErrorMessage(id)`
return exactly `m` and replaces the record by itself with only the error
message set (both completion flags as before); every other id finds what it
found before; on an unknown id the registry is returned unchanged. -/
theorem recordTaskError_frame (reg : Registry) (taskId : Nat) (m : String) :
    (∀ it, find reg taskId = some it →
        getTaskErrorMessage (recordTaskError reg taskId m) taskId = .returned (some m) ∧
        find (recordTaskError reg taskId m) taskId
          = some { it with taskInfo := { it.taskInfo with errorMessage := some m } } ∧
        isTaskCompleted (recordTaskError reg taskId m) taskId = isTaskCompleted reg taskId) ∧
      (∀ other, other ≠ taskId →
        find (recordTaskError reg taskId m) other = find reg other) ∧
      (find reg taskId = none → recordTaskError reg taskId m = reg) := by
  refine ⟨?_, ?_, ?_⟩
  · intro it hit
    have hfind := find_recordTaskError_same reg taskId m
    rw [hit] at hfind
    simp only [Option.map_some'] at hfind
    refine ⟨?_, hfind, ?_⟩
    · simp [getTaskErrorMessage, hfind]
    · simp [isTaskCompleted, hfind, hit]
  · intro other hne
    exact find_recordTaskError_other reg taskId other m hne
  · intro habsent
    simp [recordTaskError, habsent]

/-- C9 at a registry holding tasks 0 and 1, recording an error on task 0. -/
theorem recordTaskError_frame_witness :
    getTaskErrorMessage
        (recordTaskError
          [(0, { protocolName := "SSH", taskId := 0 }),
            (1, { protocolName := "SFTP", taskId := 1 })] 0 "disk full") 0
      = .returned (some "disk full") :=
  ((recordTaskError_frame
      [(0, { protocolName := "SSH", taskId := 0 }),
        (1, { protocolName := "SFTP", taskId := 1 })] 0 "disk full").1
    { protocolName := "SSH", taskId := 0 } (by decide)).1

/-- C10: `markTaskAsCompleted(id)` writes the outer flag only, so the snapshot
returned by `getDetailedTaskInfo(id)` is the same before and after; for a
record whose nested info has its default values the snapshot still says
`isCompleted = false` while `isTaskCompleted(id)` returns true. -/
theorem markTaskAsCompleted_keeps_snapshot (reg : Registry) (taskId : Nat) :
    getDetailedTaskInfo (markTaskAsCompleted reg taskId) taskId
        = getDetailedTaskInfo reg taskId ∧
      (∀ it, find reg taskId = some it → it.taskInfo = {} →
        getDetailedTaskInfo (markTaskAsCompleted reg taskId) taskId
          = some { errorMessage := none, isCompleted := false } ∧
        isTaskCompleted (markTaskAsCompleted reg taskId) taskId = .returned true) := by
  have hfind := find_markTaskAsCompleted_same reg taskId
  refine ⟨?_, ?_⟩
  · cases h : find reg taskId with
    | none => simp [getDetailedTaskInfo, hfind, h]
    | some it => simp [getDetailedTaskInfo, hfind, h]
  · intro it hit hdefault
    rw [hit] at hfind
    simp only [Option.map_some'] at hfind
    constructor
    · simp [getDetailedTaskInfo, hfind, hdefault]
    · simp [isTaskCompleted, hfind]

/-- C10 at a registry holding the record that line 134 builds for task 0. -/
theorem markTaskAsCompleted_keeps_snapshot_witness :
    getDetailedTaskInfo
        (markTaskAsCompleted [(0, newConnectionInfo 0 { getProtocolName := "SSH" })] 0) 0
        = some { errorMessage := none, isCompleted := false } ∧
      isTaskCompleted
        (markTaskAsCompleted [(0, newConnectionInfo 0 { getProtocolName := "SSH" })] 0) 0
        = .returned true :=
  (markTaskAsCompleted_keeps_snapshot
      [(0, newConnectionInfo 0 { getProtocolName := "SSH" })] 0).2
    (newConnectionInfo 0 { getProtocolName := "SSH" }) (by decide) (by decide)

/-! ## Lemmas on sequences of calls -/

theorem isTaskCompleted_step (reg : Registry) (taskId : Nat) (op : RegistryOp)
    (h : isTaskCompleted reg taskId = .returned true) :
    isTaskCompleted (step reg op) taskId = .returned true := by
  cases hfind : find reg taskId with
  | none => simp [isTaskCompleted, hfind] at h
  | some it =>
    have hflag : it.isCompleted = true := by simpa [isTaskCompleted, hfind] using h
    cases op with
    | recordConnection currentTaskId connection => exact h
    | markTaskAsCompleted other =>
      by_cases hne : taskId = other
      · subst hne
        simp [step, isTaskCompleted, find_markTaskAsCompleted_same, hfind]
      · simp [step, isTaskCompleted, find_markTaskAsCompleted_other reg other taskId hne,
          hfind, hflag]
    | recordTaskError other errorMessage =>
      by_cases hne : taskId = other
      · subst hne
        simp [step, isTaskCompleted, find_recordTaskError_same, hfind, hflag]
      · simp [step, isTaskCompleted,
          find_recordTaskError_other reg other taskId errorMessage hne, hfind, hflag]
    | isTaskCompleted other => exact h
    | getTaskErrorMessage other => exact h
    | getDetailedTaskInfo other => exact h

theorem find_isSome_step (reg : Registry) (taskId : Nat) (op : RegistryOp)
    (h : (find reg taskId).isSome = true) : (find (step reg op) taskId).isSome = true := by
  cases op with
  | recordConnection currentTaskId connection => exact h
  | markTaskAsCompleted other =>
    by_cases hne : taskId = other
    · subst hne
      simpa [step, find_markTaskAsCompleted_same] using h
    · simpa [step, find_markTaskAsCompleted_other reg other taskId hne] using h
  | recordTaskError other errorMessage =>
    by_cases hne : taskId = other
    · subst hne
      simpa [step, find_recordTaskError_same] using h
    · simpa [step, find_recordTaskError_other reg other taskId errorMessage hne] using h
  | isTaskCompleted other => exact h
  | getTaskErrorMessage other => exact h
  | getDetailedTaskInfo other => exact h

/-! ## Lemmas on the id counter -/

theorem runJob_fst_counter {A R : Type} (w : Nat) (pool : ConnectionPool) (job : Job A R) :
    (runJob w pool job).1.connectionIdCounter = (pool.connectionIdCounter + 1) % 2 ^ w := by
  cases job <;> rfl

theorem runJob_snd {A R : Type} (w : Nat) (pool : ConnectionPool) (job : Job A R) :
    (runJob w pool job).2 = pool.connectionIdCounter % 2 ^ w := by
  cases job <;> rfl

theorem runJobs_length {A R : Type} (w : Nat) (pool : ConnectionPool) (jobs : List (Job A R)) :
    (runJobs w pool jobs).length = jobs.length := by
  induction jobs generalizing pool with
  | nil => rfl
  | cons job rest ih => simp [runJobs, ih]

theorem runJobs_getElem? {A R : Type} (w : Nat) (pool : ConnectionPool)
    (jobs : List (Job A R)) (k : Nat) (hk : k < jobs.length) :
    (runJobs w pool jobs)[k]? = some ((pool.connectionIdCounter + k) % 2 ^ w) := by
  induction jobs generalizing pool k with
  | nil => exact absurd hk (Nat.not_lt_zero k)
  | cons job rest ih =>
    cases k with
    | zero => simp [runJobs, runJob_snd]
    | succ n =>
      have hn : n < rest.length := Nat.lt_of_succ_lt_succ hk
      have hstep : ((pool.connectionIdCounter + 1) % 2 ^ w + n) % 2 ^ w
          = (pool.connectionIdCounter + (n + 1)) % 2 ^ w := by
        rw [Nat.add_mod, Nat.mod_mod, ← Nat.add_mod]
        congr 1
        omega
      simp only [runJobs, List.getElem?_cons_succ]
      rw [ih (runJob w pool job).1 n hn, runJob_fst_counter, hstep]

theorem runJobs_getElem {A R : Type} (w : Nat) (pool : ConnectionPool)
    (jobs : List (Job A R)) (k : Nat) (hk : k < (runJobs w pool jobs).length) :
    (runJobs w pool jobs)[k] = (pool.connectionIdCounter + k) % 2 ^ w := by
  have hk2 : k < jobs.length := by rwa [runJobs_length] at hk
  have h := runJobs_getElem? w pool jobs k hk2
  rw [List.getElem?_eq_getElem hk] at h
  exact Option.some.inj h

theorem add_mod_inj (M c i j : Nat) (hi : i < M) (hj : j < M)
    (h : (c + i) % M = (c + j) % M) : i = j := by
  have hmod : c + i ≡ c + j [MOD M] := h
  exact (Nat.ModEq.add_left_cancel' c hmod).eq_of_lt_of_lt hi hj

/-! ## Registration -/

/-- C2: `recordConnection` returns the member registry exactly as it received
it, so after `recordConnection(id, connection)` on the empty registry the id is
still unknown: `isTaskCompleted(id)` and `getTaskErrorMessage(id)` throw
"Task not found" and `getDetailedTaskInfo(id)` is `nullopt`. -/
theorem recordConnection_registers_nothing (reg : Registry) (currentTaskId : Nat)
    (connection : Connection) :
    recordConnection reg currentTaskId connection = reg ∧
      find (recordConnection [] currentTaskId connection) currentTaskId = none ∧
      isTaskCompleted (recordConnection [] currentTaskId connection) currentTaskId
        = .raised (.stdException "std::runtime_error" "Task not found") ∧
      getTaskErrorMessage (recordConnection [] currentTaskId connection) currentTaskId
        = .raised (.stdException "std::runtime_error" "Task not found") ∧
      getDetailedTaskInfo (recordConnection [] currentTaskId connection) currentTaskId
        = none :=
  ⟨rfl, rfl, rfl, rfl, rfl⟩

/-- C3: the first wrapped unit of work run on a fresh pool, around an
operation that returns normally, draws id 0 and leaves the registry empty, so
afterwards `isTaskCompleted(0)` and `getTaskErrorMessage(0)` throw
"Task not found" instead of returning true and empty; the same for a non-void
and for a void operation. -/
theorem taskWrapper_success_not_recorded {R : Type} (w : Nat) (connection : Connection)
    (value : R) :
    ((taskWrapper w initialPool connection (fun _ : Unit => Outcome.returned value) ()).currentTaskId
        = 0 ∧
      isTaskCompleted
        (taskWrapper w initialPool connection
          (fun _ : Unit => Outcome.returned value) ()).pool.connectionRegistry 0
        = .raised (.stdException "std::runtime_error" "Task not found") ∧
      getTaskErrorMessage
        (taskWrapper w initialPool connection
          (fun _ : Unit => Outcome.returned value) ()).pool.connectionRegistry 0
        = .raised (.stdException "std::runtime_error" "Task not found")) ∧
    ((taskWrapperVoid w initialPool connection (fun _ : Unit => Outcome.returned ()) ()).currentTaskId
        = 0 ∧
      isTaskCompleted
        (taskWrapperVoid w initialPool connection
          (fun _ : Unit => Outcome.returned ()) ()).pool.connectionRegistry 0
        = .raised (.stdException "std::runtime_error" "Task not found") ∧
      getTaskErrorMessage
        (taskWrapperVoid w initialPool connection
          (fun _ : Unit => Outcome.returned ()) ()).pool.connectionRegistry 0
        = .raised (.stdException "std::runtime_error" "Task not found")) := by
  refine ⟨⟨?_, rfl, rfl⟩, ⟨?_, rfl, rfl⟩⟩
  · simp [taskWrapper, fetch_add, initialPool]
  · simp [taskWrapperVoid, fetch_add, initialPool]

/-! ## Failure handling -/

/-- C6: once `isTaskCompleted(id)` returns true it returns true after every
sequence of `recordConnection`, `markTaskAsCompleted`, `recordTaskError` and
read-accessor calls, with any arguments; and an id that is present stays
present. -/
theorem completion_permanent (reg : Registry) (taskId : Nat) (ops : List RegistryOp)
    (hdone : isTaskCompleted reg taskId = .returned true) :
    isTaskCompleted (run reg ops) taskId = .returned true ∧
      ∀ other, (find reg other).isSome = true → (find (run reg ops) other).isSome = true := by
  constructor
  · induction ops generalizing reg with
    | nil => exact hdone
    | cons op rest ih => exact ih (step reg op) (isTaskCompleted_step reg taskId op hdone)
  · intro other hother
    clear hdone
    induction ops generalizing reg with
    | nil => exact hother
    | cons op rest ih => exact ih (step reg op) (find_isSome_step reg other op hother)

/-- C6 on a completed task 0, followed by an error record, a registration of
the same id, a second mark and a read. -/
theorem completion_permanent_witness :
    isTaskCompleted
        (run [(0, { protocolName := "SSH", taskId := 0, isCompleted := true })]
          [.recordTaskError 0 "late", .recordConnection 0 { getProtocolName := "SSH" },
            .markTaskAsCompleted 0, .isTaskCompleted 0]) 0
      = .returned true :=
  (completion_permanent [(0, { protocolName := "SSH", taskId := 0, isCompleted := true })] 0
    [.recordTaskError 0 "late", .recordConnection 0 { getProtocolName := "SSH" },
      .markTaskAsCompleted 0, .isTaskCompleted 0] (by decide)).1

/-! ## Id allocation -/

/-- C7 as stated fails on a 64-bit counter: in a run of `2 ^ 64 + 1` jobs from
the fresh pool, the job at position `2 ^ 64` draws id 0, not `2 ^ 64`, which
the job at position 0 drew as well; the ids are not pairwise distinct. -/
theorem ids_repeat_after_wrap :
    (runJobs 64 initialPool
        (List.replicate (2 ^ 64 + 1)
          (Job.void { getProtocolName := "SSH" } (fun _ : Unit => Outcome.returned ()) ()
            : Job Unit Unit)))[0]? = some 0 ∧
      (runJobs 64 initialPool
        (List.replicate (2 ^ 64 + 1)
          (Job.void { getProtocolName := "SSH" } (fun _ : Unit => Outcome.returned ()) ()
            : Job Unit Unit)))[2 ^ 64]? = some 0 ∧
      ¬ (runJobs 64 initialPool
        (List.replicate (2 ^ 64 + 1)
          (Job.void { getProtocolName := "SSH" } (fun _ : Unit => Outcome.returned ()) ()
            : Job Unit Unit))).Nodup := by
  have hlen : ∀ job : Job Unit Unit, (List.replicate (2 ^ 64 + 1) job).length = 2 ^ 64 + 1 :=
    fun job => List.length_replicate _ _
  have hfirst := runJobs_getElem? 64 initialPool
    (List.replicate (2 ^ 64 + 1)
      (Job.void { getProtocolName := "SSH" } (fun _ : Unit => Outcome.returned ()) ()
        : Job Unit Unit)) 0 (by rw [hlen]; exact Nat.succ_pos _)
  have hlast := runJobs_getElem? 64 initialPool
    (List.replicate (2 ^ 64 + 1)
      (Job.void { getProtocolName := "SSH" } (fun _ : Unit => Outcome.returned ()) ()
        : Job Unit Unit)) (2 ^ 64) (by rw [hlen]; exact Nat.lt_succ_self _)
  have hzero : (initialPool.connectionIdCounter + 0) % 2 ^ 64 = 0 := rfl
  have hwrap : (initialPool.connectionIdCounter + 2 ^ 64) % 2 ^ 64 = 0 := by
    show (0 + 2 ^ 64) % 2 ^ 64 = 0
    rw [Nat.zero_add, Nat.mod_self]
  rw [hzero] at hfirst
  rw [hwrap] at hlast
  refine ⟨hfirst, hlast, ?_⟩
  intro hnodup
  rw [List.nodup_iff_getElem?_ne_getElem?] at hnodup
  have hlt : 2 ^ 64 < (runJobs 64 initialPool
      (List.replicate (2 ^ 64 + 1)
        (Job.void { getProtocolName := "SSH" } (fun _ : Unit => Outcome.returned ()) ()
          : Job Unit Unit))).length := by
    rw [runJobs_length, hlen]
    exact Nat.lt_succ_self _
  exact hnodup 0 (2 ^ 64) (Nat.pos_pow_of_pos 64 (by decide)) hlt (hfirst.trans hlast.symm)

/-- C7, amended: on a counter of `w` bits, the ids drawn by any sequence of at
most `2 ^ w` wrapper runs are pairwise distinct, from whatever counter value
the sequence starts; from the fresh pool the run at position `k` draws `k`. -/
theorem ids_distinct_below_wrap {A R : Type} (w : Nat) (pool : ConnectionPool)
    (jobs : List (Job A R)) (hlen : jobs.length ≤ 2 ^ w) :
    (runJobs w pool jobs).Nodup ∧ runJobs w initialPool jobs = List.range jobs.length := by
  constructor
  · rw [List.nodup_iff_injective_get]
    intro i j hij
    have hsame := runJobs_length w pool jobs
    have hi : i.val < 2 ^ w := by
      have := i.isLt
      omega
    have hj : j.val < 2 ^ w := by
      have := j.isLt
      omega
    simp only [List.get_eq_getElem] at hij
    rw [runJobs_getElem w pool jobs i.val i.isLt, runJobs_getElem w pool jobs j.val j.isLt] at hij
    exact Fin.ext (add_mod_inj (2 ^ w) pool.connectionIdCounter i.val j.val hi hj hij)
  · apply List.ext_getElem?
    intro k
    by_cases hk : k < jobs.length
    · rw [runJobs_getElem? w initialPool jobs k hk, List.getElem?_range hk]
      have hkw : k < 2 ^ w := by omega
      simp [initialPool, Nat.mod_eq_of_lt hkw]
    · have h1 : (runJobs w initialPool jobs).length ≤ k := by
        rw [runJobs_length]
        omega
      have h2 : (List.range jobs.length).length ≤ k := by
        rw [List.length_range]
        omega
      rw [List.getElem?_eq_none h1, List.getElem?_eq_none h2]

/-- C7, amended, on three jobs from the fresh pool: ids 0, 1, 2. -/
theorem ids_distinct_below_wrap_witness :
    runJobs 64 initialPool
        [Job.void { getProtocolName := "SSH" } (fun _ : Unit => Outcome.returned ()) (),
          Job.nonVoid { getProtocolName := "SFTP" } (fun _ : Unit => Outcome.returned 5) (),
          (Job.void { getProtocolName := "SSH" }
            (fun _ : Unit => Outcome.raised (.other "int")) () : Job Unit Nat)]
      = [0, 1, 2] :=
  (ids_distinct_below_wrap 64 initialPool
    [Job.void { getProtocolName := "SSH" } (fun _ : Unit => Outcome.returned ()) (),
      Job.nonVoid { getProtocolName := "SFTP" } (fun _ : Unit => Outcome.returned 5) (),
      (Job.void { getProtocolName := "SSH" }
        (fun _ : Unit => Outcome.raised (.other "int")) () : Job Unit Nat)]
    (by simp)).2

end ConnPool
